import Mathlib

/-!
Verification of the `HistogramColorClassifier` from deepgaze
(`deepgaze/color_classification.py`).

Shallow embedding: images and histograms are opaque handles (`Nat`);
the OpenCV collaborator (`cv2.cvtColor`, `cv2.calcHist`, `cv2.normalize`,
`cv2.compareHist`) is an environment of oracle functions; comparison
scores are rationals.  Each Python method becomes a Lean function from
the classifier state to an `Outcome`: an `Except` result (exceptions
propagate to the caller), the state of the instance when the call
returns or raises, and the list of warnings emitted.
-/

namespace DeepGaze

/-- Exceptions raised by the classifier code: `NameError` (invalid
histogram type in `addModelHistogram`), `ValueError` (unsupported
method, OpenCV version alert, `np.argmax` of an empty array), and
`IndexError` (list indexing out of range). -/
inductive DGError where
  | nameError : DGError
  | valueError : String → DGError
  | indexError : String → DGError
  deriving DecidableEq, Repr

/-- OpenCV histogram-comparison flag `cv2.cv.CV_COMP_INTERSECT` (OpenCV 2). -/
def CV_COMP_INTERSECT : Nat := 2
/-- OpenCV histogram-comparison flag `cv2.cv.CV_COMP_CORREL` (OpenCV 2). -/
def CV_COMP_CORREL : Nat := 0
/-- OpenCV histogram-comparison flag `cv2.cv.CV_COMP_CHISQR` (OpenCV 2). -/
def CV_COMP_CHISQR : Nat := 1
/-- OpenCV histogram-comparison flag `cv2.cv.CV_COMP_BHATTACHARYYA` (OpenCV 2). -/
def CV_COMP_BHATTACHARYYA : Nat := 3
/-- OpenCV histogram-comparison flag `cv2.HISTCMP_INTERSECT` (OpenCV 3). -/
def HISTCMP_INTERSECT : Nat := 2
/-- OpenCV histogram-comparison flag `cv2.HISTCMP_CORREL` (OpenCV 3). -/
def HISTCMP_CORREL : Nat := 0
/-- OpenCV histogram-comparison flag `cv2.HISTCMP_CHISQR` (OpenCV 3). -/
def HISTCMP_CHISQR : Nat := 1
/-- OpenCV histogram-comparison flag `cv2.HISTCMP_BHATTACHARYYA` (OpenCV 3). -/
def HISTCMP_BHATTACHARYYA : Nat := 3

/-- The external imaging collaborator (OpenCV) together with the module
level `MAJOR` version string.  Images and histograms are opaque `Nat`
handles; `compareHist` returns the rational comparison score for a pair
of histogram handles and a comparison flag. -/
structure Env where
  major : String
  cvtColor : String → Nat → Nat
  calcHist : Nat → List Nat → List Nat → List Nat → Nat
  normalizeFlatten : Nat → Nat
  compareHist : Nat → Nat → Nat → ℚ

/-- The module-level `VERSION_ALERT` message. -/
def versionAlert (major : String) : String :=
  "[DEEPGAZE][ERROR] color_classification.py: the version " ++ major ++
    " of OpenCV is not compatible with Deepgaze 2.0"

/-- The instance state of `HistogramColorClassifier`: configuration,
the parallel model/name lists, and the comparison cache fields. -/
structure ClassifierState where
  channels : List Nat
  hist_size : List Nat
  hist_range : List Nat
  hist_type : String
  model_list : List Nat
  name_list : List String
  comparison : Bool
  best_match_name : String
  best_match_index : Option Nat
  probability_array : List ℚ
  comparison_array : List ℚ
  deriving DecidableEq, Repr

deriving instance DecidableEq for Except

/-- The result of calling one classifier method: the returned value or
the raised exception, the instance state at the moment the call ends,
and the warnings emitted by `warnings.warn` during the call. -/
structure Outcome (α : Type) where
  result : Except DGError α
  state : ClassifierState
  warns : List String
  deriving Repr

instance {α : Type} [DecidableEq α] : DecidableEq (Outcome α) :=
  fun a b => by
    cases a; cases b
    exact decidable_of_iff _ (iff_of_eq (Outcome.mk.injEq _ _ _ _ _ _)).symm

/-- `__init__`: configuration is stored and the model collection and
the comparison cache start empty/unset (`comparison=False`,
`best_match_name=" "`, `best_match_index=None`, empty arrays). -/
def initClassifier (channels hist_size hist_range : List Nat)
    (hist_type : String) : ClassifierState :=
  { channels := channels, hist_size := hist_size, hist_range := hist_range,
    hist_type := hist_type, model_list := [], name_list := [],
    comparison := false, best_match_name := " ", best_match_index := none,
    probability_array := [], comparison_array := [] }

/-- A classifier built with the constructor's default configuration. -/
def defaultClassifier : ClassifierState :=
  initClassifier [0, 1, 2] [10, 10, 10] [0, 256, 0, 256, 0, 256] "BGR"

/-- Warning emitted when `addModelHistogram` gets an invalid histogram type. -/
def warnInvalidHistType : String :=
  "[DEEPGAZE][ERROR] Please specify valid histogram type"

/-- Warning emitted (inside the overwrite loop) for a duplicate name. -/
def warnOverwrite (name : String) : String :=
  "[DEEPGAZE][WARNING] The given name " ++ name ++
    " has been used before , it is overwriting previous instace"

/-- Warning emitted when no cached comparison exists and no image is given. -/
def warnNoImage : String :=
  "[DEEPGAZE][WARNING] Classifier did not recieve an image instance"

/-- The histogram stored for a (already converted) frame:
`cv2.normalize(cv2.calcHist([frame], channels, None, hist_size, hist_range)).flatten()`. -/
def frameHist (env : Env) (st : ClassifierState) (frame : Nat) : Nat :=
  env.normalizeFlatten (env.calcHist frame st.channels st.hist_size st.hist_range)

/-- Body of `addModelHistogram` after the color conversion: compute the
normalized flattened histogram, default the empty name to the decimal
string of the current model-list length, then either append the new
(name, histogram) pair or overwrite the histogram at the first index
whose name matches, warning once per loop iteration up to the match.
(`self.model_list[i] = hist` raises `IndexError` — with the warnings
already emitted and no state change — if the model list is shorter
than that first matching name index.) -/
def addModelHistogramAux (env : Env) (st : ClassifierState) (frame : Nat)
    (name : String) : Outcome Unit :=
  let hist := frameHist env st frame
  let name1 := if name = "" then toString st.model_list.length else name
  if name1 ∈ st.name_list then
    let i := st.name_list.findIdx (· == name1)
    if i < st.model_list.length then
      ⟨.ok (), { st with model_list := st.model_list.set i hist },
        List.replicate (i + 1) (warnOverwrite name1)⟩
    else
      ⟨.error (.indexError "list assignment index out of range"), st,
        List.replicate (i + 1) (warnOverwrite name1)⟩
  else
    ⟨.ok (), { st with
        model_list := st.model_list ++ [hist],
        name_list := st.name_list ++ [name1] }, []⟩

/-- `addModelHistogram(model_frame, name='')`: converts the frame per
`hist_type` (`HSV`/`GRAY`/`RGB`), raises `NameError` after a warning
for any other type except `BGR`, then stores the histogram. -/
def addModelHistogram (env : Env) (st : ClassifierState) (model_frame : Nat)
    (name : String) : Outcome Unit :=
  if st.hist_type = "HSV" then
    addModelHistogramAux env st (env.cvtColor "BGR2HSV" model_frame) name
  else if st.hist_type = "GRAY" then
    addModelHistogramAux env st (env.cvtColor "BGR2GRAY" model_frame) name
  else if st.hist_type = "RGB" then
    addModelHistogramAux env st (env.cvtColor "BGR2RGB" model_frame) name
  else if st.hist_type ≠ "BGR" then
    ⟨.error .nameError, st, [warnInvalidHistType]⟩
  else
    addModelHistogramAux env st model_frame name

/-- `removeModelHistogramByName(name)`: returns `False` when the name
is absent; otherwise deletes the entry at the first matching index from
both parallel lists and returns `True`.  (`del self.model_list[i]`
would raise `IndexError` if the model list were shorter; the name list
has already been mutated at that point.) -/
def removeModelHistogramByName (st : ClassifierState) (name : String) :
    Outcome (Option Bool) :=
  if name ∈ st.name_list then
    let i := st.name_list.findIdx (· == name)
    if i < st.model_list.length then
      ⟨.ok (some true),
        { st with
            name_list := st.name_list.eraseIdx i,
            model_list := st.model_list.eraseIdx i }, []⟩
    else
      ⟨.error (.indexError "list assignment index out of range"),
        { st with name_list := st.name_list.eraseIdx i }, []⟩
  else
    ⟨.ok (some false), st, []⟩

/-- `returnHistogramComparison(hist_1, hist_2, method)`: dispatch on the
method string, picking the OpenCV flag appropriate for `MAJOR` (raising
`VERSION_ALERT` for other versions), and call `cv2.compareHist`;
unsupported method names raise `ValueError`.  The method reads and
writes no instance state, so the state is returned unchanged. -/
def returnHistogramComparison (env : Env) (st : ClassifierState)
    (hist_1 hist_2 : Nat) (method : String) : Outcome ℚ :=
  if method = "intersection" then
    if env.major = "2" then
      ⟨.ok (env.compareHist hist_1 hist_2 CV_COMP_INTERSECT), st, []⟩
    else if env.major = "3" then
      ⟨.ok (env.compareHist hist_1 hist_2 HISTCMP_INTERSECT), st, []⟩
    else ⟨.error (.valueError (versionAlert env.major)), st, []⟩
  else if method = "correlation" then
    if env.major = "2" then
      ⟨.ok (env.compareHist hist_1 hist_2 CV_COMP_CORREL), st, []⟩
    else if env.major = "3" then
      ⟨.ok (env.compareHist hist_1 hist_2 HISTCMP_CORREL), st, []⟩
    else ⟨.error (.valueError (versionAlert env.major)), st, []⟩
  else if method = "chisqr" then
    if env.major = "2" then
      ⟨.ok (env.compareHist hist_1 hist_2 CV_COMP_CHISQR), st, []⟩
    else if env.major = "3" then
      ⟨.ok (env.compareHist hist_1 hist_2 HISTCMP_CHISQR), st, []⟩
    else ⟨.error (.valueError (versionAlert env.major)), st, []⟩
  else if method = "bhattacharyya" then
    if env.major = "2" then
      ⟨.ok (env.compareHist hist_1 hist_2 CV_COMP_BHATTACHARYYA), st, []⟩
    else if env.major = "3" then
      ⟨.ok (env.compareHist hist_1 hist_2 HISTCMP_BHATTACHARYYA), st, []⟩
    else ⟨.error (.valueError (versionAlert env.major)), st, []⟩
  else
    ⟨.error (.valueError
      ("[DEEPGAZE][ERROR] color_classification.py: the method specified "
        ++ method ++ " is not supported.")), st, []⟩

/-- The `for model_hist in self.model_list` loop of
`returnHistogramComparisonArray`: compute the score of the query
histogram against each model histogram in collection order; an
exception from `returnHistogramComparison` propagates. -/
def computeScores (env : Env) (st : ClassifierState) (image_hist : Nat)
    (models : List Nat) (method : String) : Except DGError (List ℚ) :=
  match models with
  | [] => .ok []
  | m :: ms =>
    match (returnHistogramComparison env st image_hist m method).result with
    | .error e => .error e
    | .ok c =>
      match computeScores env st image_hist ms method with
      | .error e => .error e
      | .ok cs => .ok (c :: cs)

/-- The color conversion at the top of `returnHistogramComparisonArray`:
unlike `addModelHistogram` there is no `else` branch, so any
unrecognized `hist_type` leaves the image unconverted. -/
def queryConvert (env : Env) (st : ClassifierState) (image : Nat) : Nat :=
  if st.hist_type = "HSV" then env.cvtColor "BGR2HSV" image
  else if st.hist_type = "GRAY" then env.cvtColor "BGR2GRAY" image
  else if st.hist_type = "RGB" then env.cvtColor "BGR2RGB" image
  else image

/-- The normalized flattened histogram of the query image computed by
`returnHistogramComparisonArray`. -/
def queryHist (env : Env) (st : ClassifierState) (image : Nat) : Nat :=
  frameHist env st (queryConvert env st image)

/-- `np.argmax` on a rational list: the index of the first occurrence
of the maximum (`none` on the empty list, where NumPy raises
`ValueError`). -/
def argmax? (l : List ℚ) : Option Nat :=
  match l.max? with
  | none => none
  | some m => some (l.findIdx (· == m))

/-- The `ValueError` message of `np.argmax` on an empty sequence. -/
def emptyArgmaxMsg : String := "attempt to get argmax of an empty sequence"

/-- Requested output shape (`output_type=list` or `output_type=dict`). -/
inductive OutputType where
  | list | dict
  deriving DecidableEq, Repr

/-- A comparison result: a plain score sequence or a name-to-score mapping. -/
inductive CompOutput where
  | arr : List ℚ → CompOutput
  | dictOut : List (String × ℚ) → CompOutput
  deriving DecidableEq, Repr

/-- `returnHistogramComparisonArray` up to the cache updates (lines
190-205): convert the image, compute its histogram, fill the score
array, then set `comparison=True`, `probability_array` (each score
divided by the score sum), `best_match_index` (`np.argmax`, raising on
an empty array AFTER the two previous assignments), `best_match_name`,
and `comparison_array`, in that order. -/
def returnHistogramComparisonArrayCore (env : Env) (st : ClassifierState)
    (image : Nat) (method : String) : Outcome (List ℚ) :=
  let image_hist := queryHist env st image
  match computeScores env st image_hist st.model_list method with
  | .error e => ⟨.error e, st, []⟩
  | .ok comparison_array =>
    let st1 := { st with
      comparison := true,
      probability_array :=
        comparison_array.map (fun c => c / comparison_array.sum) }
    match argmax? comparison_array with
    | none => ⟨.error (.valueError emptyArgmaxMsg), st1, []⟩
    | some idx =>
      let st2 := { st1 with best_match_index := some idx }
      match st2.name_list[idx]? with
      | none => ⟨.error (.indexError "list index out of range"), st2, []⟩
      | some nm =>
        ⟨.ok comparison_array,
          { st2 with
              best_match_name := nm,
              comparison_array := comparison_array }, []⟩

/-- `returnHistogramComparisonArray(image, method, output_type)`: the
core computation, with the returned (local) array re-shaped into a
name-to-score dict when `output_type == dict`. -/
def returnHistogramComparisonArray (env : Env) (st : ClassifierState)
    (image : Nat) (method : String) (output_type : OutputType) :
    Outcome CompOutput :=
  match returnHistogramComparisonArrayCore env st image method with
  | ⟨.error e, st1, w⟩ => ⟨.error e, st1, w⟩
  | ⟨.ok ca, st1, w⟩ =>
    match output_type with
    | .list => ⟨.ok (.arr ca), st1, w⟩
    | .dict => ⟨.ok (.dictOut (st1.name_list.zip ca)), st1, w⟩

/-- `returnHistogramComparisonProbability(image=None, method, output_type)`:
cache first (returning the cached `probability_array`, zipped with the
names for dict output); otherwise, with an image, run the full
comparison (with the default list output) and return the fresh
distribution (note: `output_type` is NOT applied in this branch);
otherwise warn and return `None`. -/
def returnHistogramComparisonProbability (env : Env) (st : ClassifierState)
    (image : Option Nat) (method : String) (output_type : OutputType) :
    Outcome (Option CompOutput) :=
  if st.comparison then
    match output_type with
    | .list => ⟨.ok (some (.arr st.probability_array)), st, []⟩
    | .dict =>
      ⟨.ok (some (.dictOut (st.name_list.zip st.probability_array))), st, []⟩
  else
    match image with
    | some img =>
      match returnHistogramComparisonArrayCore env st img method with
      | ⟨.error e, st1, w⟩ => ⟨.error e, st1, w⟩
      | ⟨.ok ca, st1, w⟩ =>
        ⟨.ok (some (.arr (ca.map (fun c => c / ca.sum)))), st1, w⟩
    | none => ⟨.ok none, st, [warnNoImage]⟩

/-- `returnBestMatchIndex(image=None, method)`: cached
`best_match_index` when a comparison was performed; otherwise, with an
image, run the comparison and take `np.argmax` of the fresh array;
otherwise warn and return `None`. -/
def returnBestMatchIndex (env : Env) (st : ClassifierState)
    (image : Option Nat) (method : String) : Outcome (Option Nat) :=
  if st.comparison then ⟨.ok st.best_match_index, st, []⟩
  else
    match image with
    | some img =>
      match returnHistogramComparisonArrayCore env st img method with
      | ⟨.error e, st1, w⟩ => ⟨.error e, st1, w⟩
      | ⟨.ok ca, st1, w⟩ =>
        match argmax? ca with
        | none => ⟨.error (.valueError emptyArgmaxMsg), st1, w⟩
        | some i => ⟨.ok (some i), st1, w⟩
    | none => ⟨.ok none, st, [warnNoImage]⟩

/-- `returnBestMatchName(image=None, method)`: cached `best_match_name`
when a comparison was performed; otherwise, with an image, run the
comparison and index `self.name_list` at the fresh arg-max; otherwise
warn and return `None`. -/
def returnBestMatchName (env : Env) (st : ClassifierState)
    (image : Option Nat) (method : String) : Outcome (Option String) :=
  if st.comparison then ⟨.ok (some st.best_match_name), st, []⟩
  else
    match image with
    | some img =>
      match returnHistogramComparisonArrayCore env st img method with
      | ⟨.error e, st1, w⟩ => ⟨.error e, st1, w⟩
      | ⟨.ok ca, st1, w⟩ =>
        match argmax? ca with
        | none => ⟨.error (.valueError emptyArgmaxMsg), st1, w⟩
        | some i =>
          match st1.name_list[i]? with
          | none => ⟨.error (.indexError "list index out of range"), st1, w⟩
          | some nm => ⟨.ok (some nm), st1, w⟩
    | none => ⟨.ok none, st, [warnNoImage]⟩

/-- `returnNameList()`. -/
def returnNameList (st : ClassifierState) : List String := st.name_list

/-- `returnSize()`. -/
def returnSize (st : ClassifierState) : Nat := st.model_list.length

/-- The comparison-cache portion of the state, as a tuple (flag, raw
scores, probabilities, best-match index, best-match name). -/
def cacheOf (st : ClassifierState) :
    Bool × List ℚ × List ℚ × Option Nat × String :=
  (st.comparison, st.comparison_array, st.probability_array,
    st.best_match_index, st.best_match_name)

/-- A concrete OpenCV-3 environment used for witnesses: handles pass
through conversion shifted, the histogram of a handle is the handle
itself, and the score of a pair of histograms is `h1 - h2/2`. -/
def sampleEnv : Env :=
  { major := "3", cvtColor := fun _ i => i + 100,
    calcHist := fun i _ _ _ => i, normalizeFlatten := fun h => h,
    compareHist := fun h1 h2 _ => (h1 : ℚ) - (h2 : ℚ) / 2 }


/-- A three-model classifier state used as a concrete witness input. -/
def witnessState : ClassifierState :=
  { defaultClassifier with model_list := [5, 6, 7], name_list := ["0", "1", "2"] }

/-- The cache state produced by the witness comparison call. -/
def witnessArrState : ClassifierState :=
  { witnessState with
      comparison := true,
      probability_array := [1/2, 1/3, 1/6],
      best_match_index := some 0,
      best_match_name := "0",
      comparison_array := [3/2, 1, 1/2] }

/-- A classifier configured with the unrecognized color-space mode
`"FOO"`, holding three models. -/
def fooState : ClassifierState := { witnessState with hist_type := "FOO" }

/-! ### Helper lemmas -/

/-- `argmax?` of a nonempty list returns the index of the greatest
element, first occurrence on ties. -/
theorem argmax?_spec (l : List ℚ) (hl : l ≠ []) :
    ∃ i, argmax? l = some i ∧ ∃ h : i < l.length,
      (∀ j (hj : j < l.length), l.get ⟨j, hj⟩ ≤ l.get ⟨i, h⟩) ∧
      ∀ j (hj : j < l.length), j < i → l.get ⟨j, hj⟩ < l.get ⟨i, h⟩ := by
  obtain ⟨m, hm⟩ : ∃ m, l.max? = some m := by
    cases h : l.max? with
    | none => exact absurd (List.max?_eq_none_iff.mp h) hl
    | some m => exact ⟨m, rfl⟩
  have hmem : m ∈ l := List.max?_mem (fun _ _ => max_choice _ _) hm
  have hle : ∀ b ∈ l, b ≤ m :=
    (List.max?_le_iff (fun _ _ _ => max_le_iff) hm).mp (le_refl m)
  have hex : ∃ x ∈ l, (x == m) = true := ⟨m, hmem, by simp⟩
  have hilt : l.findIdx (· == m) < l.length :=
    List.findIdx_lt_length_of_exists hex
  have hgetm : l.get ⟨l.findIdx (· == m), hilt⟩ = m := by
    have := @List.findIdx_getElem _ (· == m) l hilt
    simpa using this
  refine ⟨l.findIdx (· == m), by simp [argmax?, hm], hilt, ?_, ?_⟩
  · intro j hj
    have hmj : l.get ⟨j, hj⟩ ∈ l := by
      simp only [List.get_eq_getElem]
      exact l.getElem_mem hj
    rw [hgetm]
    exact hle _ hmj
  · intro j hjl hj
    have hne := @List.not_of_lt_findIdx _ (· == m) l j hj
    have hmj : l.get ⟨j, hjl⟩ ∈ l := by
      simp only [List.get_eq_getElem]
      exact l.getElem_mem hjl
    have hneq : l.get ⟨j, hjl⟩ ≠ m := by simpa using hne
    rw [hgetm]
    exact lt_of_le_of_ne (hle _ hmj) hneq

/-- A successful score loop yields one score per model. -/
theorem computeScores_ok_length (env : Env) (st : ClassifierState)
    (image_hist : Nat) (models : List Nat) (method : String) (cs : List ℚ)
    (h : computeScores env st image_hist models method = .ok cs) :
    cs.length = models.length := by
  induction models generalizing cs with
  | nil =>
    simp only [computeScores, Except.ok.injEq] at h
    subst h; rfl
  | cons m ms ihs =>
    simp only [computeScores] at h
    split at h
    · exact absurd h (by simp)
    · split at h
      · exact absurd h (by simp)
      · rename_i cs1 hcs1
        simp only [Except.ok.injEq] at h
        subst h
        simp [ihs _ hcs1]

/-- A successful score loop computes, index by index, the comparison of
the query histogram with the model at the same index. -/
theorem computeScores_ok_get (env : Env) (st : ClassifierState)
    (image_hist : Nat) (models : List Nat) (method : String) (cs : List ℚ)
    (h : computeScores env st image_hist models method = .ok cs) :
    ∀ i, i < models.length → ∃ mo c, models[i]? = some mo ∧
      cs[i]? = some c ∧
      (returnHistogramComparison env st image_hist mo method).result =
        .ok c := by
  induction models generalizing cs with
  | nil => intro i hi; simp at hi
  | cons m ms ihs =>
    simp only [computeScores] at h
    split at h
    · exact absurd h (by simp)
    · rename_i c hc
      split at h
      · exact absurd h (by simp)
      · rename_i cs1 hcs1
        simp only [Except.ok.injEq] at h
        subst h
        intro i hi
        cases i with
        | zero => exact ⟨m, c, by simp, by simp, hc⟩
        | succ n =>
          simp only [List.length_cons, Nat.succ_lt_succ_iff] at hi
          obtain ⟨mo, c2, h1, h2, h3⟩ := ihs _ hcs1 n hi
          exact ⟨mo, c2, by simpa using h1, by simpa using h2, h3⟩

/-- Anatomy of a successful `returnHistogramComparisonArray` core call:
the score loop succeeded, `np.argmax` and the name lookup succeeded,
no warning was emitted, and the new state is the old one with exactly
the five cache fields overwritten. -/
theorem core_ok_spec (env : Env) (st : ClassifierState) (image : Nat)
    (method : String) (ca : List ℚ) (st1 : ClassifierState) (w : List String)
    (h : returnHistogramComparisonArrayCore env st image method =
      ⟨.ok ca, st1, w⟩) :
    computeScores env st (queryHist env st image) st.model_list method =
      .ok ca ∧
    ∃ idx nm, argmax? ca = some idx ∧ st.name_list[idx]? = some nm ∧
      w = [] ∧
      st1 = { st with
        comparison := true,
        probability_array := ca.map (fun c => c / ca.sum),
        best_match_index := some idx,
        best_match_name := nm,
        comparison_array := ca } := by
  simp only [returnHistogramComparisonArrayCore] at h
  split at h
  · exact absurd h (by simp)
  · rename_i ca1 hca1
    split at h
    · exact absurd h (by simp)
    · rename_i idx hidx
      split at h
      · exact absurd h (by simp)
      · rename_i nm hnm
        simp only [Outcome.mk.injEq, Except.ok.injEq] at h
        obtain ⟨hca, hst, hw⟩ := h
        subst hca
        exact ⟨hca1, idx, nm, hidx, by simpa using hnm, hw.symm, hst.symm⟩


/-! ### Claims -/

/-- C1: for every classifier with at least one stored model, every
successful `returnHistogramComparisonArray(image, method)` call sets the
cache exactly as follows: the comparison flag becomes true, the raw
score sequence is stored aligned by index to the model collection in
collection order, the probability sequence equals each score divided by
the sum of all scores, the best-match index is the index of the maximum
score (first occurrence on ties), and the best-match name is the stored
name at that index. -/
theorem comparisonArray_sets_cache (env : Env) (st st1 : ClassifierState)
    (image : Nat) (method : String) (output_type : OutputType)
    (out : CompOutput) (w : List String)
    (hmodels : st.model_list ≠ [])
    (h : returnHistogramComparisonArray env st image method output_type =
      ⟨.ok out, st1, w⟩) :
    st1.comparison = true ∧
    st1.comparison_array.length = st.model_list.length ∧
    (∀ i, i < st.model_list.length → ∃ mo c, st.model_list[i]? = some mo ∧
      st1.comparison_array[i]? = some c ∧
      (returnHistogramComparison env st (queryHist env st image) mo
        method).result = .ok c) ∧
    st1.probability_array =
      st1.comparison_array.map (fun c => c / st1.comparison_array.sum) ∧
    ∃ idx, ∃ hidx : idx < st1.comparison_array.length,
      st1.best_match_index = some idx ∧
      (∀ j (hj : j < st1.comparison_array.length),
        st1.comparison_array.get ⟨j, hj⟩ ≤
          st1.comparison_array.get ⟨idx, hidx⟩) ∧
      (∀ j (hj : j < st1.comparison_array.length), j < idx →
        st1.comparison_array.get ⟨j, hj⟩ <
          st1.comparison_array.get ⟨idx, hidx⟩) ∧
      st.name_list[idx]? = some st1.best_match_name := by
  simp only [returnHistogramComparisonArray] at h
  split at h
  · rename_i e st2 w2 heq
    exact absurd h (by simp)
  · rename_i ca st2 w2 heq
    have hcore := core_ok_spec env st image method ca st2 w2 heq
    obtain ⟨hscores, idx, nm, hargmax, hname, hw2, hst2⟩ := hcore
    have hst1 : st1 = st2 ∧ w = w2 := by
      cases output_type with
      | list => simpa using ⟨(congrArg Outcome.state h).symm,
          (congrArg Outcome.warns h).symm⟩
      | dict => simpa using ⟨(congrArg Outcome.state h).symm,
          (congrArg Outcome.warns h).symm⟩
    obtain ⟨hst1, hwz⟩ := hst1
    subst hst1
    subst hst2
    have hlen : ca.length = st.model_list.length :=
      computeScores_ok_length env st _ _ _ _ hscores
    have hane : ca ≠ [] := by
      intro hca
      exact hmodels (List.length_eq_zero.mp (by simp [hca] at hlen; omega))
    refine ⟨rfl, hlen, ?_, rfl, ?_⟩
    · exact computeScores_ok_get env st _ _ _ _ hscores
    · obtain ⟨i2, hi2, hbound, hmax, hfirst⟩ := argmax?_spec ca hane
      have : i2 = idx := by
        rw [hargmax] at hi2
        exact (Option.some.injEq _ _).mp hi2.symm
      subst this
      exact ⟨i2, hbound, rfl, hmax, hfirst, by simpa using hname⟩


theorem comparisonArray_sets_cache_witness :
    witnessState.model_list ≠ [] ∧ witnessArrState.comparison = true := by
  have h := comparisonArray_sets_cache sampleEnv witnessState witnessArrState 4
      "intersection" OutputType.list (CompOutput.arr [3/2, 1, 1/2]) []
      (by decide) (by with_unfolding_all decide)
  exact ⟨by decide, h.1⟩


/-- C2: whenever the comparison flag is set, the three query functions
return the corresponding cached value (probability sequence or mapping,
best-match index, best-match name) without recomputation, leaving the
state untouched, even when an image argument is supplied. -/
theorem getters_cache_first (env : Env) (st : ClassifierState)
    (image : Option Nat) (method : String)
    (hc : st.comparison = true) :
    returnHistogramComparisonProbability env st image method .list =
      ⟨.ok (some (.arr st.probability_array)), st, []⟩ ∧
    returnHistogramComparisonProbability env st image method .dict =
      ⟨.ok (some (.dictOut (st.name_list.zip st.probability_array))),
        st, []⟩ ∧
    returnBestMatchIndex env st image method =
      ⟨.ok st.best_match_index, st, []⟩ ∧
    returnBestMatchName env st image method =
      ⟨.ok (some st.best_match_name), st, []⟩ := by
  refine ⟨?_, ?_, ?_, ?_⟩ <;>
    simp [returnHistogramComparisonProbability, returnBestMatchIndex,
      returnBestMatchName, hc]

theorem getters_cache_first_witness :
    witnessArrState.comparison = true ∧
    returnBestMatchIndex sampleEnv witnessArrState (some 4) "intersection" =
      ⟨.ok witnessArrState.best_match_index, witnessArrState, []⟩ :=
  ⟨rfl, (getters_cache_first sampleEnv witnessArrState (some 4)
    "intersection" rfl).2.2.1⟩

/-- C8: `addModelHistogram` and `removeModelHistogramByName` leave all
five comparison-cache fields unchanged, whether they succeed or raise. -/
theorem addModelHistogramAux_cache (env : Env) (st : ClassifierState)
    (frame : Nat) (name : String) :
    cacheOf ((addModelHistogramAux env st frame name).state) = cacheOf st := by
  simp only [addModelHistogramAux]
  split <;> split <;> first
    | rfl
    | (split <;> rfl)

theorem mutators_leave_cache (env : Env) (st : ClassifierState)
    (frame : Nat) (name rname : String) :
    cacheOf ((addModelHistogram env st frame name).state) = cacheOf st ∧
    cacheOf ((removeModelHistogramByName st rname).state) = cacheOf st := by
  constructor
  · simp only [addModelHistogram]
    split_ifs <;> first
      | rfl
      | exact addModelHistogramAux_cache env st _ name
  · simp only [removeModelHistogramByName]
    split_ifs <;> rfl

/-- C9: with the comparison flag unset and no image argument, each of
the three query functions emits the "no image" warning and returns
`None`, raising nothing and changing no state. -/
theorem no_cache_no_image_warns (env : Env) (st : ClassifierState)
    (method : String) (output_type : OutputType)
    (hc : st.comparison = false) :
    returnHistogramComparisonProbability env st none method output_type =
      ⟨.ok none, st, [warnNoImage]⟩ ∧
    returnBestMatchIndex env st none method =
      ⟨.ok none, st, [warnNoImage]⟩ ∧
    returnBestMatchName env st none method =
      ⟨.ok none, st, [warnNoImage]⟩ := by
  refine ⟨?_, ?_, ?_⟩ <;>
    simp [returnHistogramComparisonProbability, returnBestMatchIndex,
      returnBestMatchName, hc]

theorem no_cache_no_image_warns_witness :
    defaultClassifier.comparison = false ∧
    returnBestMatchName sampleEnv defaultClassifier none "intersection" =
      ⟨.ok none, defaultClassifier, [warnNoImage]⟩ :=
  ⟨rfl, (no_cache_no_image_warns sampleEnv defaultClassifier "intersection"
    OutputType.list rfl).2.2⟩

/-- C10: with an empty model collection, `returnHistogramComparisonArray`
raises the `ValueError` of `np.argmax` on an empty sequence instead of
returning an empty array; before failing it has already set the
comparison flag true and stored the (empty, hence invalid) probability
sequence, while the remaining cache fields and the model collection are
untouched — the cache is mutated despite the error. -/
theorem emptyModels_comparison_raises (env : Env) (st : ClassifierState)
    (image : Nat) (method : String) (output_type : OutputType)
    (hempty : st.model_list = []) :
    (returnHistogramComparisonArray env st image method output_type).result
      = .error (.valueError emptyArgmaxMsg) ∧
    ((returnHistogramComparisonArray env st image method
      output_type).state).comparison = true ∧
    ((returnHistogramComparisonArray env st image method
      output_type).state).probability_array = [] ∧
    ((returnHistogramComparisonArray env st image method
      output_type).state).best_match_index = st.best_match_index ∧
    ((returnHistogramComparisonArray env st image method
      output_type).state).best_match_name = st.best_match_name ∧
    ((returnHistogramComparisonArray env st image method
      output_type).state).comparison_array = st.comparison_array ∧
    ((returnHistogramComparisonArray env st image method
      output_type).state).model_list = [] ∧
    ((returnHistogramComparisonArray env st image method
      output_type).state).name_list = st.name_list := by
  simp [returnHistogramComparisonArray, returnHistogramComparisonArrayCore,
    hempty, computeScores, argmax?, List.max?]

theorem emptyModels_comparison_raises_witness :
    defaultClassifier.model_list = [] ∧
    ((returnHistogramComparisonArray sampleEnv defaultClassifier 4
      "intersection" OutputType.list).result
        = .error (.valueError emptyArgmaxMsg) ∧
    ((returnHistogramComparisonArray sampleEnv defaultClassifier 4
      "intersection" OutputType.list).state).comparison = true) := by
  have h := emptyModels_comparison_raises sampleEnv defaultClassifier 4
    "intersection" OutputType.list rfl
  exact ⟨rfl, h.1, h.2.1⟩


/-- C5: removing an absent name returns false and changes no state;
removing a present name deletes exactly one entry from both parallel
sequences at the same (first-matching) position, preserving the
relative order of the rest, decrements the size by one, and returns
true. -/
theorem removeModel_spec (st : ClassifierState) (name : String) :
    (name ∉ st.name_list →
      removeModelHistogramByName st name = ⟨.ok (some false), st, []⟩) ∧
    (name ∈ st.name_list → st.name_list.length = st.model_list.length →
      ∃ i, i < st.name_list.length ∧ st.name_list[i]? = some name ∧
        (∀ j, j < i → st.name_list[j]? ≠ some name) ∧
        removeModelHistogramByName st name =
          ⟨.ok (some true),
            { st with
                name_list :=
                  st.name_list.take i ++ st.name_list.drop (i + 1),
                model_list :=
                  st.model_list.take i ++ st.model_list.drop (i + 1) }, []⟩ ∧
        ((removeModelHistogramByName st name).state).name_list.length + 1 =
          st.name_list.length ∧
        ((removeModelHistogramByName st name).state).model_list.length + 1 =
          st.model_list.length) := by
  constructor
  · intro hna
    simp [removeModelHistogramByName, hna]
  · intro hmem hlen
    have hex : ∃ x ∈ st.name_list, (x == name) = true := ⟨name, hmem, by simp⟩
    have hilt : st.name_list.findIdx (· == name) < st.name_list.length :=
      List.findIdx_lt_length_of_exists hex
    have himl : st.name_list.findIdx (· == name) < st.model_list.length := by
      omega
    have hgm : st.name_list[st.name_list.findIdx (· == name)]? = some name := by
      rw [List.getElem?_eq_getElem hilt]
      have := @List.findIdx_getElem _ (· == name) st.name_list hilt
      simpa using this
    have heq : removeModelHistogramByName st name =
        ⟨.ok (some true),
          { st with
              name_list :=
                st.name_list.eraseIdx (st.name_list.findIdx (· == name)),
              model_list :=
                st.model_list.eraseIdx (st.name_list.findIdx (· == name)) },
          []⟩ := by
      simp [removeModelHistogramByName, hmem, himl]
    refine ⟨st.name_list.findIdx (· == name), hilt, ?_, ?_, ?_, ?_, ?_⟩
    · exact hgm
    · intro j hj
      have hjl : j < st.name_list.length := lt_trans hj hilt
      have hb := List.not_of_lt_findIdx hj
      rw [List.getElem?_eq_getElem hjl]
      simpa using hb
    · rw [heq]
      simp [List.eraseIdx_eq_take_drop_succ]
    · rw [heq]
      simp [List.length_eraseIdx, hilt]
      omega
    · rw [heq]
      simp [List.length_eraseIdx, himl]
      omega

theorem removeModel_spec_witness :
    ("zzz" ∉ witnessState.name_list ∧
      removeModelHistogramByName witnessState "zzz" =
        ⟨.ok (some false), witnessState, []⟩) ∧
    ("1" ∈ witnessState.name_list ∧
      witnessState.name_list.length = witnessState.model_list.length ∧
      ((removeModelHistogramByName witnessState "1").state).name_list.length
        + 1 = witnessState.name_list.length) := by
  have h1 := (removeModel_spec witnessState "zzz").1 (by decide)
  have h2 := (removeModel_spec witnessState "1").2 (by decide) (by decide)
  obtain ⟨i, _, _, _, _, hlen, _⟩ := h2
  exact ⟨⟨by decide, h1⟩, by decide, by decide, hlen⟩

/-- C6: `returnHistogramComparison` raises an unsupported-method
`ValueError` for every metric name outside the four supported ones,
returns a scalar for each of the four (under a supported OpenCV major
version), and never mutates the classifier state or warns. -/
theorem histComparison_method_spec (env : Env) (st : ClassifierState)
    (hist_1 hist_2 : Nat) (method : String) :
    (returnHistogramComparison env st hist_1 hist_2 method).state = st ∧
    (returnHistogramComparison env st hist_1 hist_2 method).warns = [] ∧
    (method ∉ (["intersection", "correlation", "chisqr",
        "bhattacharyya"] : List String) →
      (returnHistogramComparison env st hist_1 hist_2 method).result =
        .error (.valueError
          ("[DEEPGAZE][ERROR] color_classification.py: the method specified "
            ++ method ++ " is not supported."))) ∧
    ((env.major = "2" ∨ env.major = "3") →
      method ∈ (["intersection", "correlation", "chisqr",
        "bhattacharyya"] : List String) →
      ∃ c, (returnHistogramComparison env st hist_1 hist_2 method).result =
        .ok c) := by
  refine ⟨?_, ?_, ?_, ?_⟩
  · simp only [returnHistogramComparison]
    split_ifs <;> rfl
  · simp only [returnHistogramComparison]
    split_ifs <;> rfl
  · intro hnm
    simp only [List.mem_cons, List.not_mem_nil, or_false, not_or] at hnm
    obtain ⟨h1, h2, h3, h4⟩ := hnm
    simp [returnHistogramComparison, h1, h2, h3, h4]
  · intro hmaj hm
    simp only [List.mem_cons, List.not_mem_nil, or_false] at hm
    rcases hm with hm | hm | hm | hm <;> subst hm <;>
      rcases hmaj with hmaj | hmaj
    · exact ⟨env.compareHist hist_1 hist_2 CV_COMP_INTERSECT,
        by simp [returnHistogramComparison, hmaj]⟩
    · exact ⟨env.compareHist hist_1 hist_2 HISTCMP_INTERSECT,
        by simp [returnHistogramComparison, hmaj]⟩
    · exact ⟨env.compareHist hist_1 hist_2 CV_COMP_CORREL,
        by simp [returnHistogramComparison, hmaj]⟩
    · exact ⟨env.compareHist hist_1 hist_2 HISTCMP_CORREL,
        by simp [returnHistogramComparison, hmaj]⟩
    · exact ⟨env.compareHist hist_1 hist_2 CV_COMP_CHISQR,
        by simp [returnHistogramComparison, hmaj]⟩
    · exact ⟨env.compareHist hist_1 hist_2 HISTCMP_CHISQR,
        by simp [returnHistogramComparison, hmaj]⟩
    · exact ⟨env.compareHist hist_1 hist_2 CV_COMP_BHATTACHARYYA,
        by simp [returnHistogramComparison, hmaj]⟩
    · exact ⟨env.compareHist hist_1 hist_2 HISTCMP_BHATTACHARYYA,
        by simp [returnHistogramComparison, hmaj]⟩

theorem histComparison_method_spec_witness :
    (¬("foo" ∈ (["intersection", "correlation", "chisqr",
        "bhattacharyya"] : List String)) ∧
      (returnHistogramComparison sampleEnv witnessState 4 5 "foo").result =
        .error (.valueError
          ("[DEEPGAZE][ERROR] color_classification.py: the method specified "
            ++ "foo" ++ " is not supported."))) ∧
    ((sampleEnv.major = "2" ∨ sampleEnv.major = "3") ∧
      ∃ c, (returnHistogramComparison sampleEnv witnessState 4 5
        "chisqr").result = .ok c) :=
  ⟨⟨by decide,
    (histComparison_method_spec sampleEnv witnessState 4 5 "foo").2.2.1
      (by decide)⟩,
   ⟨Or.inr rfl,
    (histComparison_method_spec sampleEnv witnessState 4 5 "chisqr").2.2.2
      (Or.inr rfl) (by decide)⟩⟩

/-- C7: an empty-string name defaults to the decimal string form of the
model-collection size before insertion (appended when that default name
is fresh); in particular three consecutive empty-name adds to a freshly
constructed classifier store the names "0", "1", "2" in order. -/
theorem addModel_default_name (env : Env) (st : ClassifierState)
    (frame f1 f2 f3 : Nat) :
    ((st.hist_type = "BGR" ∨ st.hist_type = "HSV" ∨ st.hist_type = "GRAY" ∨
        st.hist_type = "RGB") →
      toString st.model_list.length ∉ st.name_list →
      ((addModelHistogram env st frame "").state).name_list =
        st.name_list ++ [toString st.model_list.length]) ∧
    ((addModelHistogram sampleEnv
      (addModelHistogram sampleEnv
        (addModelHistogram sampleEnv defaultClassifier f1 "").state
        f2 "").state f3 "").state.name_list = ["0", "1", "2"]) := by
  constructor
  · intro hvalid hfresh
    have haux : ∀ fr : Nat,
        ((addModelHistogramAux env st fr "").state).name_list =
          st.name_list ++ [toString st.model_list.length] := by
      intro fr
      simp [addModelHistogramAux, hfresh]
    rcases hvalid with h | h | h | h <;>
      simp [addModelHistogram, h, haux]
  · have t0 : toString (0 : Nat) = "0" := rfl
    have t1 : toString (1 : Nat) = "1" := rfl
    have t2 : toString (2 : Nat) = "2" := rfl
    simp [addModelHistogram, addModelHistogramAux, defaultClassifier,
      initClassifier, sampleEnv, frameHist, t0, t1, t2]

theorem addModel_default_name_witness :
    (defaultClassifier.hist_type = "BGR" ∨ defaultClassifier.hist_type = "HSV"
      ∨ defaultClassifier.hist_type = "GRAY" ∨
      defaultClassifier.hist_type = "RGB") ∧
    (toString defaultClassifier.model_list.length ∉
      defaultClassifier.name_list) ∧
    ((addModelHistogram sampleEnv defaultClassifier 5 "").state).name_list =
      defaultClassifier.name_list ++
        [toString defaultClassifier.model_list.length] :=
  ⟨Or.inl rfl, by decide,
    (addModel_default_name sampleEnv defaultClassifier 5 0 0 0).1
      (Or.inl rfl) (by decide)⟩


/-- Every error raised by `returnHistogramComparison` is a `ValueError`
(unsupported method or version alert), never a `NameError`. -/
theorem histComparison_error_valueError (env : Env) (st : ClassifierState)
    (hist_1 hist_2 : Nat) (method : String) (e : DGError)
    (h : (returnHistogramComparison env st hist_1 hist_2 method).result =
      .error e) :
    ∃ msg, e = .valueError msg := by
  simp only [returnHistogramComparison] at h
  split_ifs at h <;> simp only [Except.error.injEq] at h <;>
    first
      | exact absurd h (by simp)
      | exact ⟨_, h.symm⟩

/-- Every error raised by the score loop is a `ValueError`. -/
theorem computeScores_error_valueError (env : Env) (st : ClassifierState)
    (image_hist : Nat) (models : List Nat) (method : String) (e : DGError)
    (h : computeScores env st image_hist models method = .error e) :
    ∃ msg, e = .valueError msg := by
  induction models with
  | nil => simp [computeScores] at h
  | cons m ms ihs =>
    simp only [computeScores] at h
    split at h
    · rename_i e2 he2
      simp only [Except.error.injEq] at h
      subst h
      exact histComparison_error_valueError env st image_hist m method _ he2
    · split at h
      · rename_i e2 he2
        simp only [Except.error.injEq] at h
        subst h
        exact ihs he2
      · exact absurd h (by simp)

/-- An error raised by the core of `returnHistogramComparisonArray` is
never the configuration `NameError`. -/
theorem core_error_not_nameError (env : Env) (st : ClassifierState)
    (image : Nat) (method : String) (e : DGError) (st1 : ClassifierState)
    (w : List String)
    (h : returnHistogramComparisonArrayCore env st image method =
      ⟨.error e, st1, w⟩) :
    e ≠ .nameError := by
  simp only [returnHistogramComparisonArrayCore] at h
  split at h
  · rename_i e2 he2
    simp only [Outcome.mk.injEq, Except.error.injEq] at h
    obtain ⟨he, _, _⟩ := h
    subst he
    obtain ⟨msg, hm⟩ := computeScores_error_valueError env st _ _ _ _ he2
    subst hm
    simp
  · split at h
    · simp only [Outcome.mk.injEq, Except.error.injEq] at h
      obtain ⟨he, _, _⟩ := h
      subst he
      simp
    · split at h
      · simp only [Outcome.mk.injEq, Except.error.injEq] at h
        obtain ⟨he, _, _⟩ := h
        subst he
        simp
      · exact absurd h (by simp)

/-- C3 counterexample: with the unrecognized color-space mode `"FOO"`
and stored models, `returnHistogramComparisonArray` does NOT fail: it
returns a fully computed score array (the claim asserts that it raises
a configuration error and computes no scores, as `addModelHistogram`
does for the same mode). -/
theorem unrecognizedMode_query_succeeds :
    (returnHistogramComparisonArray sampleEnv fooState 4 "intersection"
      OutputType.list).result = .ok (.arr [3/2, 1, 1/2]) := by
  with_unfolding_all decide

/-- C3 amended: for an unrecognized color-space mode,
`addModelHistogram` raises `NameError` (after a warning, with no state
change), but `returnHistogramComparisonArray` performs no color
conversion (treating the mode exactly like as-is/BGR) and proceeds with
the comparison; no error it raises is ever the configuration
`NameError`. -/
theorem unrecognizedMode_behavior (env : Env) (st : ClassifierState)
    (image frame : Nat) (name method : String) (output_type : OutputType)
    (h1 : st.hist_type ∉ (["HSV", "GRAY", "RGB"] : List String)) :
    queryConvert env st image = image ∧
    (∀ e, (returnHistogramComparisonArray env st image method
        output_type).result = .error e → e ≠ .nameError) ∧
    (st.hist_type ≠ "BGR" →
      addModelHistogram env st frame name =
        ⟨.error .nameError, st, [warnInvalidHistType]⟩) := by
  simp only [List.mem_cons, List.not_mem_nil, or_false, not_or] at h1
  obtain ⟨hh, hg, hr⟩ := h1
  refine ⟨?_, ?_, ?_⟩
  · simp [queryConvert, hh, hg, hr]
  · intro e he
    simp only [returnHistogramComparisonArray] at he
    split at he
    · rename_i e2 st2 w2 heq
      simp only [Except.error.injEq] at he
      subst he
      exact core_error_not_nameError env st image method _ st2 w2 heq
    · split at he <;> exact absurd he (by simp)
  · intro hb
    simp [addModelHistogram, hh, hg, hr, hb]

theorem unrecognizedMode_behavior_witness :
    ("FOO" ∉ (["HSV", "GRAY", "RGB"] : List String)) ∧
    queryConvert sampleEnv fooState 4 = 4 ∧
    addModelHistogram sampleEnv fooState 9 "x" =
      ⟨.error .nameError, fooState, [warnInvalidHistType]⟩ := by
  have h := unrecognizedMode_behavior sampleEnv fooState 4 9 "x"
    "intersection" OutputType.list (by decide)
  exact ⟨by decide, h.1, h.2.2 (by decide)⟩

/-- With a valid configured mode, `addModelHistogram` is the conversion
free body applied to some converted frame. -/
theorem addModelHistogram_valid_eq_aux (env : Env) (st : ClassifierState)
    (frame : Nat) (name : String)
    (hvalid : st.hist_type = "BGR" ∨ st.hist_type = "HSV" ∨
      st.hist_type = "GRAY" ∨ st.hist_type = "RGB") :
    ∃ fr, addModelHistogram env st frame name =
      addModelHistogramAux env st fr name := by
  rcases hvalid with h | h | h | h
  · exact ⟨frame, by simp [addModelHistogram, h]⟩
  · exact ⟨env.cvtColor "BGR2HSV" frame, by simp [addModelHistogram, h]⟩
  · exact ⟨env.cvtColor "BGR2GRAY" frame, by simp [addModelHistogram, h]⟩
  · exact ⟨env.cvtColor "BGR2RGB" frame, by simp [addModelHistogram, h]⟩

/-- The duplicate-name branch of `addModelHistogram`: the histogram is
replaced in place at the first index carrying the name. -/
theorem addModelHistogramAux_overwrite (env : Env) (st : ClassifierState)
    (fr : Nat) (name : String) (hne : name ≠ "")
    (hmem : name ∈ st.name_list)
    (hlen : st.name_list.findIdx (· == name) < st.model_list.length) :
    addModelHistogramAux env st fr name =
      ⟨.ok (),
        { st with
            model_list :=
              st.model_list.set (st.name_list.findIdx (· == name))
                (frameHist env st fr) },
        List.replicate (st.name_list.findIdx (· == name) + 1)
          (warnOverwrite name)⟩ := by
  simp [addModelHistogramAux, hne, hmem, hlen]

/-- `addModelHistogramAux` preserves distinctness of names. -/
theorem addModelHistogramAux_nodup (env : Env) (st : ClassifierState)
    (fr : Nat) (name : String) (h : st.name_list.Nodup) :
    (((addModelHistogramAux env st fr name).state).name_list).Nodup := by
  simp only [addModelHistogramAux]
  split <;> split <;>
    first
      | (split <;> simpa using h)
      | simpa using h
      | · rename_i hnot
          refine List.Nodup.append h (List.nodup_singleton _) ?_
          intro a ha hb
          simp only [List.mem_singleton] at hb
          subst hb
          exact hnot ha

/-- C4: name uniqueness is an invariant preserved by `addModelHistogram`;
adding under an already-present (non-empty) name succeeds, leaves the
name sequence and the collection size unchanged (no append, no
reordering), replaces the histogram in place at the existing position
of that name, emits the non-fatal "overwriting" warning, and leaves the
name present exactly once. -/
theorem addModel_unique_names (env : Env) (st : ClassifierState)
    (frame : Nat) (name : String) :
    (st.name_list.Nodup →
      (((addModelHistogram env st frame name).state).name_list).Nodup) ∧
    ((st.hist_type = "BGR" ∨ st.hist_type = "HSV" ∨ st.hist_type = "GRAY" ∨
        st.hist_type = "RGB") →
      name ≠ "" → name ∈ st.name_list →
      st.name_list.length = st.model_list.length →
      (addModelHistogram env st frame name).result = .ok () ∧
      ((addModelHistogram env st frame name).state).name_list =
        st.name_list ∧
      returnSize ((addModelHistogram env st frame name).state) =
        returnSize st ∧
      (∃ i, i < st.name_list.length ∧ st.name_list[i]? = some name ∧
        (∀ j, j < i → st.name_list[j]? ≠ some name) ∧
        ∃ hv, ((addModelHistogram env st frame name).state).model_list =
          st.model_list.set i hv) ∧
      (addModelHistogram env st frame name).warns ≠ [] ∧
      (st.name_list.Nodup →
        (((addModelHistogram env st frame name).state).name_list).count name
          = 1)) := by
  constructor
  · intro hnodup
    simp only [addModelHistogram]
    split_ifs <;> first
      | simpa using hnodup
      | exact addModelHistogramAux_nodup env st _ name hnodup
  · intro hvalid hne hmem hlen
    obtain ⟨fr, hfr⟩ := addModelHistogram_valid_eq_aux env st frame name hvalid
    have hex : ∃ x ∈ st.name_list, (x == name) = true := ⟨name, hmem, by simp⟩
    have hilt : st.name_list.findIdx (· == name) < st.name_list.length :=
      List.findIdx_lt_length_of_exists hex
    have hmlt : st.name_list.findIdx (· == name) < st.model_list.length := by
      omega
    rw [hfr, addModelHistogramAux_overwrite env st fr name hne hmem hmlt]
    have hgm : st.name_list[st.name_list.findIdx (· == name)]? = some name := by
      rw [List.getElem?_eq_getElem hilt]
      have := @List.findIdx_getElem _ (· == name) st.name_list hilt
      simpa using this
    refine ⟨rfl, rfl, by simp [returnSize], ?_, by simp, ?_⟩
    · refine ⟨st.name_list.findIdx (· == name), hilt, ?_, ?_,
        frameHist env st fr, rfl⟩
      · exact hgm
      · intro j hj
        have hjl : j < st.name_list.length := lt_trans hj hilt
        have hb := List.not_of_lt_findIdx hj
        rw [List.getElem?_eq_getElem hjl]
        simpa using hb
    · intro hnodup
      exact List.count_eq_one_of_mem hnodup hmem

theorem addModel_unique_names_witness :
    ((witnessState.hist_type = "BGR" ∨ witnessState.hist_type = "HSV" ∨
        witnessState.hist_type = "GRAY" ∨ witnessState.hist_type = "RGB") ∧
      ("1" : String) ≠ "" ∧ "1" ∈ witnessState.name_list ∧
      witnessState.name_list.length = witnessState.model_list.length) ∧
    ((addModelHistogram sampleEnv witnessState 9 "1").state).name_list =
      witnessState.name_list ∧
    returnSize ((addModelHistogram sampleEnv witnessState 9 "1").state) =
      returnSize witnessState := by
  have h := (addModel_unique_names sampleEnv witnessState 9 "1").2
    (Or.inl rfl) (by decide) (by decide) (by decide)
  exact ⟨⟨Or.inl rfl, by decide, by decide, by decide⟩, h.2.1, h.2.2.1⟩

end DeepGaze
